import Mathlib

/-!
Verification of the conversation-state and backend-client model of the
CorpTrain RAG frontend (a Streamlit chat application).

The definitions below are a shallow embedding of the Python sources:
  * `src/services/api_client.py` — the backend API client
    (`query_documents`, `query_documents_stream`);
  * `src/streamlit_app.py` — the session store and the controller in `main`
    (`initialize_session_state`, `create_welcome_message`, `is_valid_email`,
    the mode-switch block, the submit flow, the quota gate, the clear button);
  * `src/components/chat_interface.py` — the sources panel
    (`render_sources` excerpt truncation).

Python strings are embedded as `String`; the character-level operations the
code uses (slicing, `startswith`, the `in` substring test) are modelled over
`String.toList` so that every definition evaluates inside the kernel.
Wall-clock fields of the Python dicts (`timestamp`, `time`, `avatar`) are
omitted: no specified property mentions them.
-/

/-- String operation used to model Python's substring test `pat in hay`
restricted to a character list: true iff `pat` occurs contiguously in `hay`. -/
def containsSub (pat : List Char) : List Char → Bool
  | [] => pat.isEmpty
  | c :: rest => pat.isPrefixOf (c :: rest) || containsSub pat rest

/-- Python `needle in hay` on strings. -/
def pyContains (needle hay : String) : Bool :=
  containsSub needle.toList hay.toList

/-- Python `s.startswith(pre)`. -/
def pyStartswith (pre s : String) : Bool :=
  pre.toList.isPrefixOf s.toList

/-- Python slicing `s[n:]`. -/
def pyDropChars (s : String) (n : Nat) : String :=
  String.mk (s.toList.drop n)

/-- Python slicing `s[:n]`. -/
def pyTakeChars (s : String) (n : Nat) : String :=
  String.mk (s.toList.take n)

/-- The two assistant modes offered by the mode selector in
`src/streamlit_app.py` (`mode_options`): `"knowledge"` and `"preparation"`. -/
inductive Mode
  | knowledge
  | preparation
deriving DecidableEq, Repr

/-- The string value stored in `st.session_state.selected_mode` for a mode. -/
def Mode.toStr : Mode → String
  | .knowledge => "knowledge"
  | .preparation => "preparation"

/-- Role of a chat message (`message["role"]` in the Python dicts). -/
inductive Role
  | user
  | assistant
deriving DecidableEq, Repr

/-- One conversational turn: the message dicts appended to
`st.session_state.messages` in `src/streamlit_app.py`.  A field of type
`Option` models a key that may be missing from the dict (`none` = absent);
`error := false` models the absence of the `"error"` key, since the renderer
(`src/components/chat_interface.py`, line 25) tests it with `message.get("error")`,
which is falsy exactly when the key is absent or `False`. -/
structure Message where
  role : Role
  content : String
  mode : Option Mode := none
  error : Bool := false
  session_id : Option String := none
  pdf_available : Bool := false
  pdf_download_url : Option String := none
deriving DecidableEq, Repr

/-- `create_welcome_message` of `src/streamlit_app.py` (lines 448-532): the
synthetic assistant welcome message for a mode, with the source's literal
German content (the `timestamp` key is omitted, see the module docstring). -/
def create_welcome_message : Mode → Message
  | .knowledge =>
    { role := .assistant
      mode := some .knowledge
      content := "👋 **Willkommen zu Ihrem persönlichen Verhandlungs-Coach!**

**📚 Wissensmodus - Ihr Verhandlungs-Lexikon**

Haben Sie sich schon mal gefragt, warum manche Menschen in Verhandlungen immer das bekommen, was sie wollen? 

**Das Geheimnis liegt in der richtigen Vorbereitung und den richtigen Techniken.**

Hier können Sie:
• **Verhandlungstechniken lernen** - Von der Harvard-Methode bis zu Körpersprache
• **Strategien entdecken** - Wie Sie \"Nein\" in \"Ja\" verwandeln
• **Taktiken verstehen** - Vom Bluff bis zur Win-Win-Lösung
• **Sofort anwenden** - Praktische Tipps für Ihre nächste Verhandlung

**Einfach fragen:**
- \"Wie verhandle ich erfolgreich?\"
- \"Was mache ich bei einem Nein?\"
- \"Wie erkenne ich Verhandlungstricks?\"

*Ihr Erfolg in Verhandlungen beginnt mit dem richtigen Wissen!*" }
  | .preparation =>
    { role := .assistant
      mode := some .preparation
      content := "👋 **Willkommen zu Ihrem persönlichen Verhandlungs-Coach!**

---

## 🤝 **Vorbereitungsmodus - Ihr Verhandlungs-Spezialist**

**Stellen Sie sich vor:** Sie haben morgen ein wichtiges Gespräch - Gehaltsverhandlung, Vertragsabschluss, oder ein schwieriges Meeting. Sie wissen, dass die richtige Vorbereitung entscheidend ist, aber wo fangen Sie an?

**Das ist genau mein Job!** Ich führe Sie durch einen bewährten 4-Schritte-Prozess:

---

### **Der 4-Schritte-Prozess:**

**1. PRÄPARIEREN**
- Ziele definieren
- Informationen sammeln  
- Strategie entwickeln

**2. INFORMIEREN**
- Die andere Seite verstehen
- Bedürfnisse erkunden

**3. VORSCHLAGEN**
- Konkrete Angebote machen
- Verhandeln

**4. RESÜMIEREN**
- Vereinbarungen festhalten
- Abschließen

---

### 🎯 **Was Sie bekommen:**

• **Strukturierte Vorbereitung** - Nichts wird vergessen  
• **Professionelle Strategien** - Bewährte Methoden aus der Praxis  
• **Persönliche Beratung** - Angepasst an Ihre Situation  
• **Sofort umsetzbar** - Konkrete Schritte für Ihren Erfolg

---

### **Einfach beschreiben:**

- \"Ich verhandle morgen mein Gehalt\"
- \"Ich habe ein wichtiges Vertragsgespräch\"
- \"Ich muss ein schwieriges Meeting führen\"

**Lassen Sie uns gemeinsam Ihren Verhandlungserfolg vorbereiten!**" }

/-- The JSON body a successful `/api/query` response parses to, as read by
`main` in `src/streamlit_app.py` (lines 849-865).  Each field models one key
the controller reads; the outer `Option` of `session_id` and
`pdf_download_url` distinguishes an absent key (`none`) from a key present
with a possibly-null value.  `has_other_keys` records whether the JSON object
holds any key besides the four read ones, so that the Python truthiness of
the whole dict (`if response:` — false exactly for the empty dict) is
expressible.  Values of the read keys are modelled at the backend's types
(strings and booleans). -/
structure QueryResponse where
  answer : Option String := none
  session_id : Option (Option String) := none
  pdf_available : Option Bool := none
  pdf_download_url : Option (Option String) := none
  has_other_keys : Bool := false
deriving DecidableEq, Repr

/-- Python truthiness of the response dict: a dict is truthy iff non-empty. -/
def QueryResponse.isTruthyDict (r : QueryResponse) : Bool :=
  r.answer.isSome || r.session_id.isSome || r.pdf_available.isSome ||
    r.pdf_download_url.isSome || r.has_other_keys

/-- Python truthiness of an optional string (`None` and `""` are falsy). -/
def optStrTruthy : Option String → Bool
  | none => false
  | some s => decide (s ≠ "")

/-- Transport-level outcome of the POST issued by
`APIClient.query_documents` (`src/services/api_client.py`, lines 97-102):
either an HTTP response arrives (with its status code and the result of
parsing its body — `none` when `response.json()` raises), or the request
fails with one of the exception classes the client catches. -/
inductive TransportOutcome
  | httpResponse (status : Nat) (body : Option QueryResponse)
  | connectionError
  | timeoutError
  | otherException (msg : String)
deriving DecidableEq, Repr

/-- `APIClient.query_documents` (`src/services/api_client.py`, lines 71-124):
returns the parsed body on HTTP 200 and `None` in every other case — non-200
status, connection error, timeout, any other exception (including a body that
fails to parse on a 200, which raises inside the `try` and is caught by the
generic handler). -/
def query_documents : TransportOutcome → Option QueryResponse
  | .httpResponse status body => if status = 200 then body else none
  | .connectionError => none
  | .timeoutError => none
  | .otherException _ => none

/-- One parsed streaming chunk: the JSON object carried by a `data: ` line of
the `/api/query/stream` response, with the keys the stream consumer
(`render_streaming_message` in `src/components/chat_interface.py`) reads.
The error events the client itself constructs are chunks whose `type` is
`"error"`, exactly as the Python code yields `{"type": "error", "content": ...}`. -/
structure StreamChunk where
  type : String
  content : String := ""
  session_id : Option String := none
  sources : List String := []
  document_count : Nat := 0
deriving DecidableEq, Repr

/-- Transport-level outcome of the streaming POST issued by
`APIClient.query_documents_stream` (`src/services/api_client.py`,
lines 184-190): a response with its status and raw body lines, or one of the
caught request failures. -/
inductive StreamOutcome
  | httpResponse (status : Nat) (lines : List String)
  | connectionError
  | timeoutError
  | otherException (msg : String)
deriving DecidableEq, Repr

/-- `APIClient.query_documents_stream` (`src/services/api_client.py`,
lines 162-216) as the list of dicts the generator yields.  `timeout` is the
client's configured request timeout (it appears in the timeout error text);
`parse` models `json.loads` composed with reading the dict, so a `none`
result is a line whose payload fails to parse (skipped with a warning). -/
def query_documents_stream (timeout : Nat) (parse : String → Option StreamChunk) :
    StreamOutcome → List StreamChunk
  | .httpResponse status lines =>
    if status = 200 then
      lines.filterMap (fun line =>
        if pyStartswith "data: " line then parse (pyDropChars line 6) else none)
    else
      [{ type := "error", content := "Backend error: " ++ toString status }]
  | .connectionError =>
    [{ type := "error",
       content := "❌ Cannot connect to backend. Please check if the backend is running." }]
  | .timeoutError =>
    [{ type := "error",
       content := "⏱️ Request timeout (" ++ toString timeout ++ "s). The backend might be overloaded." }]
  | .otherException msg =>
    [{ type := "error", content := "❌ Unexpected error: " ++ msg }]

/-- Excerpt truncation in `render_sources`
(`src/components/chat_interface.py`, lines 92-94): content longer than 500
characters is displayed as its first 500 characters followed by `"..."`;
shorter content is displayed unmodified. -/
def truncate_excerpt (content : String) : String :=
  if content.length > 500 then pyTakeChars content 500 ++ "..." else content

/-- The excerpts the sources panel displays (`render_sources`,
`src/components/chat_interface.py`, lines 75-109): source `i` (1-based) shows
excerpt `i-1` when `retrieved_content` is non-empty and long enough, each
truncated by `truncate_excerpt`. -/
def render_sources_excerpts (sources retrieved_content : List String) : List String :=
  (retrieved_content.take sources.length).map truncate_excerpt

/-- The scalar and list fields of `st.session_state` that
`initialize_session_state` (`src/streamlit_app.py`, lines 420-441) manages
(the `api_client` object and the audio bookkeeping carry no conversation
state and are omitted). -/
structure SessionState where
  selectedMode : Mode
  messages : List Message
  queryCount : Nat
  emailProvided : Bool
  userEmail : Option String
  sessionId : Option String
deriving DecidableEq, Repr

/-- The state `initialize_session_state` creates on first load: default mode
`knowledge`, zero queries, locked quota, no email, no backend session, and a
single welcome message for the default mode. -/
def initial_state : SessionState :=
  { selectedMode := .knowledge
    messages := [create_welcome_message .knowledge]
    queryCount := 0
    emailProvided := false
    userEmail := none
    sessionId := none }

/-- `is_valid_email` of `src/streamlit_app.py` (lines 443-446): the regex
`^[a-zA-Z0-9._%+-]+@[a-zA-Z0-9.-]+\.[a-zA-Z]\x7b2,\x7d$` as an executable
predicate.  A match is: a non-empty local part over its character class, one
`@` (neither class admits `@`), then a domain over `[a-zA-Z0-9.-]` that ends
in a dot followed by at least two letters, with at least one domain character
before that final dot. -/
def is_valid_email (email : String) : Bool :=
  match email.toList.splitOn '@' with
  | [localPart, domain] =>
    !localPart.isEmpty &&
    localPart.all (fun c => c.isAlpha || c.isDigit ||
      c == '.' || c == '_' || c == '%' || c == '+' || c == '-') &&
    (let rev := domain.reverse
     let tld := rev.takeWhile (fun c => c != '.')
     match rev.drop tld.length with
     | '.' :: preRev =>
       !preRev.isEmpty &&
       preRev.all (fun c => c.isAlpha || c.isDigit || c == '.' || c == '-') &&
       decide (2 ≤ tld.length) && tld.all (fun c => c.isAlpha)
     | _ => false)
  | _ => false

/-- The quota gate of `main` (`src/streamlit_app.py`, line 621): the session
is blocked — the email modal is rendered and `main` returns before the mode
selector, the chat input and the clear button — exactly when at least three
queries are counted and no email has been provided. -/
def quota_blocked (s : SessionState) : Bool :=
  decide (s.queryCount ≥ 3) && !s.emailProvided

/-- The mode-switch block of `main` (`src/streamlit_app.py`, lines 664-677):
selecting `newMode` stores it in `selected_mode`; when it differs from the
previous mode and the message list is non-empty, the new mode's welcome
message replaces the last message in place if that message is an assistant
message containing `"Willkommen"`, and is appended otherwise. -/
def switch_mode (s : SessionState) (newMode : Mode) : SessionState :=
  if s.selectedMode = newMode then s
  else
    match s.messages.getLast? with
    | none => { s with selectedMode := newMode }
    | some lastMessage =>
      if lastMessage.role == Role.assistant && pyContains "Willkommen" lastMessage.content then
        { s with selectedMode := newMode
                 messages := s.messages.dropLast ++ [create_welcome_message newMode] }
      else
        { s with selectedMode := newMode
                 messages := s.messages ++ [create_welcome_message newMode] }

/-- The user message dict appended by the chat-input handler
(`src/streamlit_app.py`, lines 777-785). -/
def mkUserMessage (prompt : String) : Message :=
  { role := .user, content := prompt }

/-- The assistant message dict `main` builds from a truthy query response
(`src/streamlit_app.py`, lines 851-860): the answer with the literal default
`"No response received"` when the `"answer"` key is missing, the session's
current mode, and the response's session id defaulting to the stored one when
the key is missing. -/
def mkAssistantMessage (s : SessionState) (r : QueryResponse) : Message :=
  { role := .assistant
    content := r.answer.getD "No response received"
    mode := some s.selectedMode
    session_id := r.session_id.getD s.sessionId
    pdf_available := (r.pdf_available.getD false)
    pdf_download_url := (r.pdf_download_url.getD none) }

/-- Transient (non-conversational) UI output of one controller step: the
Streamlit banner `st.error(...)` emits, which is not stored in
`st.session_state.messages` and disappears on the next rerun. -/
inductive UIEffect
  | errorBanner (text : String)
deriving DecidableEq, Repr

/-- One submitted question processed end to end by `main`
(`src/streamlit_app.py`, lines 777-785 and 834-873): the user message is
appended; then, if the query result is truthy (a non-`None`, non-empty dict),
the assistant message is appended and the stored session id is updated when
the message's session id is truthy; otherwise (a `None` result or a falsy
empty dict) the controller only shows the transient banner
`"No response received from the system"`.  `resp` is what
`query_documents` returned for this turn. -/
def submit_question (s : SessionState) (prompt : String) (resp : Option QueryResponse) :
    SessionState × List UIEffect :=
  let s1 := { s with messages := s.messages ++ [mkUserMessage prompt] }
  match resp with
  | some r =>
    if r.isTruthyDict then
      let am := mkAssistantMessage s r
      let s2 := { s1 with messages := s1.messages ++ [am] }
      if optStrTruthy am.session_id then ({ s2 with sessionId := am.session_id }, [])
      else (s2, [])
    else (s1, [.errorBanner "No response received from the system"])
  | none => (s1, [.errorBanner "No response received from the system"])

/-- The clear-conversation button handler (`src/streamlit_app.py`,
lines 883-890): the message list becomes the single welcome message for the
current mode, the query count, quota flag, email and session id are reset,
and the selected mode is kept. -/
def clear_conversation (s : SessionState) : SessionState :=
  { selectedMode := s.selectedMode
    messages := [create_welcome_message s.selectedMode]
    queryCount := 0
    emailProvided := false
    userEmail := none
    sessionId := none }

/-- The email-capture form of `render_email_modal` (`src/streamlit_app.py`,
lines 583-588): a non-empty, valid email sets `user_email` and
`email_provided`; anything else leaves the state unchanged. -/
def provide_email (s : SessionState) (email : String) : SessionState :=
  if email != "" && is_valid_email email then
    { s with userEmail := some email, emailProvided := true }
  else s

/-- The user-driven transitions of one rerun of `main`. -/
inductive AppAction
  | submit (prompt : String) (resp : Option QueryResponse)
  | switchMode (m : Mode)
  | provideEmail (email : String)
  | clear
deriving DecidableEq, Repr

/-- One rerun of `main` under an action.  When the quota gate fires, `main`
renders only the email modal and returns (`src/streamlit_app.py`,
lines 620-623): the mode selector, chat input and clear button do not exist,
so only `provideEmail` can change the state; conversely the modal exists only
then. -/
def step (s : SessionState) : AppAction → SessionState
  | .submit prompt resp =>
    if quota_blocked s then s else (submit_question s prompt resp).1
  | .switchMode m =>
    if quota_blocked s then s else switch_mode s m
  | .provideEmail email =>
    if quota_blocked s then provide_email s email else s
  | .clear =>
    if quota_blocked s then s else clear_conversation s

/-- A sequence of reruns. -/
def run (s : SessionState) : List AppAction → SessionState
  | [] => s
  | a :: rest => run (step s a) rest

/-- The request body `APIClient.query_documents` posts
(`src/services/api_client.py`, lines 87-94): `question` and `mode` always,
`top_k` and `session_id` only when not `None`. -/
structure QueryRequest where
  question : String
  mode : String
  top_k : Option Nat := none
  session_id : Option String := none
deriving DecidableEq, Repr

/-- Building the request dict of `query_documents`
(`src/services/api_client.py`, lines 87-94). -/
def build_query_request (question : String) (mode : String)
    (top_k : Option Nat) (session_id : Option String) : QueryRequest :=
  { question := question, mode := mode, top_k := top_k, session_id := session_id }

/-- The query `main` issues for a submitted question
(`src/streamlit_app.py`, lines 842-847): the question text, `top_k=5`, the
selected mode, and the stored session id. -/
def main_query_request (s : SessionState) (prompt : String) : QueryRequest :=
  build_query_request prompt s.selectedMode.toStr (some 5) s.sessionId

/-- Concrete successful query response used by closed evaluations. -/
def sample_ok_response : QueryResponse :=
  { answer := some "Eine Antwort" }

/-- Concrete truthy query response without an `"answer"` key. -/
def sample_answerless_response : QueryResponse :=
  { session_id := some (some "sess-41") }

/-- Concrete payload parser used by closed evaluations of the stream client:
it accepts exactly the payload `"ok"`. -/
def sample_parse : String → Option StreamChunk :=
  fun payload => if payload == "ok" then some { type := "chunk", content := "T" } else none

/-- Concrete 600-character excerpt used by closed evaluations. -/
def long_sample : String := String.mk (List.replicate 600 'x')

/-- A truthy optional string is a non-empty string. -/
theorem optStrTruthy_eq_true {o : Option String} (h : optStrTruthy o = true) :
    ∃ v, o = some v ∧ v ≠ "" := by
  cases o with
  | none => simp [optStrTruthy] at h
  | some v => exact ⟨v, rfl, of_decide_eq_true h⟩

/-- Submitting a question never touches the query count. -/
theorem submit_question_queryCount (s : SessionState) (prompt : String)
    (resp : Option QueryResponse) :
    (submit_question s prompt resp).1.queryCount = s.queryCount := by
  cases resp with
  | none => rfl
  | some r =>
    by_cases ht : r.isTruthyDict
    · by_cases ho : optStrTruthy (mkAssistantMessage s r).session_id
      · simp [submit_question, ht, ho]
      · simp [submit_question, ht, ho]
    · simp [submit_question, ht]

/-- Submitting a question either keeps the stored session id or stores a
non-empty one. -/
theorem submit_question_sessionId (s : SessionState) (prompt : String)
    (resp : Option QueryResponse) :
    (submit_question s prompt resp).1.sessionId = s.sessionId
    ∨ ∃ v, (submit_question s prompt resp).1.sessionId = some v ∧ v ≠ "" := by
  cases resp with
  | none => exact Or.inl rfl
  | some r =>
    by_cases ht : r.isTruthyDict
    · by_cases ho : optStrTruthy (mkAssistantMessage s r).session_id
      · right
        obtain ⟨v, hv, hne⟩ := optStrTruthy_eq_true ho
        exact ⟨v, by simp [submit_question, ht, ho, hv, optStrTruthy, hne], hne⟩
      · exact Or.inl (by simp [submit_question, ht, ho])
    · exact Or.inl (by simp [submit_question, ht])

/-- A mode switch never touches the stored session id. -/
theorem switch_mode_sessionId (s : SessionState) (m : Mode) :
    (switch_mode s m).sessionId = s.sessionId := by
  unfold switch_mode
  split
  · rfl
  · split
    · rfl
    · split <;> rfl

/-- A mode switch never touches the query count. -/
theorem switch_mode_queryCount (s : SessionState) (m : Mode) :
    (switch_mode s m).queryCount = s.queryCount := by
  unfold switch_mode
  split
  · rfl
  · split
    · rfl
    · split <;> rfl

/-- The email form never touches the stored session id. -/
theorem provide_email_sessionId (s : SessionState) (email : String) :
    (provide_email s email).sessionId = s.sessionId := by
  unfold provide_email
  split <;> rfl

/-- Any rerun other than a clear keeps the stored session id non-null. -/
theorem step_sessionId_ne_none (s : SessionState) (a : AppAction)
    (hnc : a ≠ AppAction.clear) (hs : s.sessionId ≠ none) :
    (step s a).sessionId ≠ none := by
  cases a with
  | submit prompt resp =>
    simp only [step]
    split
    · exact hs
    · rcases submit_question_sessionId s prompt resp with h | ⟨v, hv, _⟩
      · rw [h]; exact hs
      · rw [hv]; simp
  | switchMode m =>
    simp only [step]
    split
    · exact hs
    · rw [switch_mode_sessionId]; exact hs
  | provideEmail email =>
    simp only [step]
    split
    · rw [provide_email_sessionId]; exact hs
    · exact hs
  | clear => exact absurd rfl hnc

/-- Across any clear-free sequence of reruns the stored session id stays
non-null. -/
theorem run_sessionId_ne_none (acts : List AppAction) :
    ∀ (s : SessionState), s.sessionId ≠ none →
      (∀ a ∈ acts, a ≠ AppAction.clear) → (run s acts).sessionId ≠ none := by
  induction acts with
  | nil => intro s hs _; exact hs
  | cons a rest ih =>
    intro s hs hnc
    exact ih (step s a) (step_sessionId_ne_none s a (hnc a (by simp)) hs)
      (fun x hx => hnc x (by simp [hx]))

/-- C1: the claim says the session's query count is incremented exactly once
per submitted question.  The code never increments it: evaluated at a fresh
session submitting one question with a successful response, `query_count`
stays 0, and in general no rerun ever increases it (only `clear` changes it,
to 0).  This contradicts the quota feature the code itself renders
("Queries used: 3/3"), so the missing increment is a code bug. -/
theorem query_count_never_incremented :
    (step initial_state (.submit "Hallo" (some sample_ok_response))).queryCount = 0
    ∧ ∀ (s : SessionState) (a : AppAction), (step s a).queryCount ≤ s.queryCount := by
  constructor
  · rfl
  · intro s a
    cases a with
    | submit prompt resp =>
      simp only [step]
      split
      · exact Nat.le_refl _
      · rw [submit_question_queryCount]
    | switchMode m =>
      simp only [step]
      split
      · exact Nat.le_refl _
      · rw [switch_mode_queryCount]
    | provideEmail email =>
      simp only [step]
      split
      · unfold provide_email
        split <;> exact Nat.le_refl _
      · exact Nat.le_refl _
    | clear =>
      simp only [step]
      split
      · exact Nat.le_refl _
      · exact Nat.zero_le _

/-- C2: the claim says that with the threshold 3 and no email provided, a 4th
submission is blocked by the email prompt.  Evaluated on the code: after three
submitted questions the query count is still 0, the quota gate does not fire,
and the 4th submission appends a user/assistant pair (two messages) instead of
being blocked — the gate is dead code because the count is never incremented. -/
theorem fourth_submission_not_blocked :
    quota_blocked (run initial_state
        [.submit "Frage 1" (some sample_ok_response),
         .submit "Frage 2" (some sample_ok_response),
         .submit "Frage 3" (some sample_ok_response)]) = false
    ∧ (run initial_state
        [.submit "Frage 1" (some sample_ok_response),
         .submit "Frage 2" (some sample_ok_response),
         .submit "Frage 3" (some sample_ok_response)]).queryCount = 0
    ∧ (step (run initial_state
        [.submit "Frage 1" (some sample_ok_response),
         .submit "Frage 2" (some sample_ok_response),
         .submit "Frage 3" (some sample_ok_response)])
        (.submit "Frage 4" (some sample_ok_response))).messages.length
      = (run initial_state
        [.submit "Frage 1" (some sample_ok_response),
         .submit "Frage 2" (some sample_ok_response),
         .submit "Frage 3" (some sample_ok_response)]).messages.length + 2 :=
  ⟨rfl, rfl, rfl⟩

/-- C3 counterexample: at a fresh session submitting "Hallo" with a null query
result, the message list afterwards is `[welcome, user]` — the roles read
`[assistant, user]` and no message in it carries `error = true` — so, contrary
to the claim, no error-flagged assistant message is appended. -/
theorem null_result_no_error_turn :
    (submit_question initial_state "Hallo" none).1.messages.map Message.role
        = [Role.assistant, Role.user]
    ∧ ((submit_question initial_state "Hallo" none).1.messages.filter
        (fun m => m.error)).length = 0
    ∧ (submit_question initial_state "Hallo" none).2
        = [UIEffect.errorBanner "No response received from the system"] :=
  ⟨rfl, rfl, rfl⟩

/-- C3 amended: on a null query result the controller appends only the user's
message to the conversation and shows the transient banner "No response
received from the system"; no assistant message (error-flagged or otherwise)
records the failure as a conversational turn. -/
theorem null_result_transient_banner (s : SessionState) (prompt : String) :
    submit_question s prompt none
      = ({ s with messages := s.messages ++ [mkUserMessage prompt] },
         [UIEffect.errorBanner "No response received from the system"]) :=
  rfl

/-- C4: sticky-forward session id.  (1) Across any clear-free sequence of
reruns a non-null stored session id never reverts to null — a turn whose
response omits `session_id` keeps the stored one.  (2) The query `main`
issues always carries the stored session id.  (3) A response carrying a
non-empty `session_id` value updates the stored one to it. -/
theorem session_id_sticky_forward :
    (∀ (s : SessionState) (acts : List AppAction), s.sessionId ≠ none →
        (∀ a ∈ acts, a ≠ AppAction.clear) → (run s acts).sessionId ≠ none)
    ∧ (∀ (s : SessionState) (prompt : String),
        (main_query_request s prompt).session_id = s.sessionId)
    ∧ (∀ (s : SessionState) (prompt : String) (r : QueryResponse) (v : String),
        r.session_id = some (some v) → v ≠ "" →
        (submit_question s prompt (some r)).1.sessionId = some v) := by
  refine ⟨fun s acts hs hnc => run_sessionId_ne_none acts s hs hnc, fun _ _ => rfl, ?_⟩
  intro s prompt r v hr hv
  have ht : r.isTruthyDict = true := by simp [QueryResponse.isTruthyDict, hr]
  have hsid : (mkAssistantMessage s r).session_id = some v := by
    simp [mkAssistantMessage, hr]
  simp [submit_question, ht, hsid, optStrTruthy, hv]

/-- C4 witness: a session holding session id "sess-1" still holds a non-null
session id after a mode switch and a failed submission. -/
theorem session_id_sticky_forward_witness :
    (run { initial_state with sessionId := some "sess-1" }
        [AppAction.switchMode Mode.preparation, AppAction.submit "Frage" none]).sessionId
      ≠ none :=
  session_id_sticky_forward.1 _ _ (by decide) (by decide)

/-- C5: `query_documents` is a total function of the transport outcome (it
never raises): on HTTP 200 it returns the parsed body, on any other status it
returns `none`, and on connection failure, timeout or any other exception it
returns `none`. -/
theorem query_documents_never_raises :
    (∀ (status : Nat) (body : Option QueryResponse),
        query_documents (.httpResponse status body) = if status = 200 then body else none)
    ∧ query_documents .connectionError = none
    ∧ query_documents .timeoutError = none
    ∧ ∀ (msg : String), query_documents (.otherException msg) = none :=
  ⟨fun _ _ => rfl, rfl, rfl, fun _ => rfl⟩

/-- C6: `query_documents_stream` never raises: a non-200 status produces
exactly one `"error"`-typed event and the sequence ends; connection failure,
timeout or any other exception likewise produce exactly one terminal
`"error"` event; on a 200 response a line that is not a `data: ` line or
whose payload fails to parse is skipped and the sequence continues, and a
parsed `data: ` line is yielded followed by the rest. -/
theorem stream_terminal_error_events :
    (∀ (timeout : Nat) (parse : String → Option StreamChunk) (status : Nat)
        (lines : List String), status ≠ 200 →
        query_documents_stream timeout parse (.httpResponse status lines)
          = [{ type := "error", content := "Backend error: " ++ toString status }])
    ∧ (∀ (timeout : Nat) (parse : String → Option StreamChunk),
        query_documents_stream timeout parse .connectionError
          = [{ type := "error",
               content := "❌ Cannot connect to backend. Please check if the backend is running." }])
    ∧ (∀ (timeout : Nat) (parse : String → Option StreamChunk),
        query_documents_stream timeout parse .timeoutError
          = [{ type := "error",
               content := "⏱️ Request timeout (" ++ toString timeout ++ "s). The backend might be overloaded." }])
    ∧ (∀ (timeout : Nat) (parse : String → Option StreamChunk) (msg : String),
        query_documents_stream timeout parse (.otherException msg)
          = [{ type := "error", content := "❌ Unexpected error: " ++ msg }])
    ∧ (∀ (timeout : Nat) (parse : String → Option StreamChunk) (line : String)
        (rest : List String),
        (pyStartswith "data: " line = false ∨ parse (pyDropChars line 6) = none) →
        query_documents_stream timeout parse (.httpResponse 200 (line :: rest))
          = query_documents_stream timeout parse (.httpResponse 200 rest))
    ∧ (∀ (timeout : Nat) (parse : String → Option StreamChunk) (line : String)
        (rest : List String) (c : StreamChunk),
        pyStartswith "data: " line = true → parse (pyDropChars line 6) = some c →
        query_documents_stream timeout parse (.httpResponse 200 (line :: rest))
          = c :: query_documents_stream timeout parse (.httpResponse 200 rest)) := by
  refine ⟨?_, fun _ _ => rfl, fun _ _ => rfl, fun _ _ _ => rfl, ?_, ?_⟩
  · intro timeout parse status lines h
    simp only [query_documents_stream]
    rw [if_neg h]
  · intro timeout parse line rest h
    rcases h with h | h
    · simp [query_documents_stream, List.filterMap_cons, h]
    · by_cases hp : pyStartswith "data: " line
      · simp [query_documents_stream, List.filterMap_cons, hp, h]
      · simp [query_documents_stream, List.filterMap_cons, hp]
  · intro timeout parse line rest c hp hc
    simp [query_documents_stream, List.filterMap_cons, hp, hc]

/-- C6 witness: concrete streams — a 200 body with two good payloads, one
malformed payload and one non-`data: ` line yields exactly the two parsed
chunks; a 500 yields exactly one error event; a timeout with the configured
30-second limit yields exactly one error event. -/
theorem stream_terminal_error_events_witness :
    query_documents_stream 30 sample_parse
        (.httpResponse 200 ["data: ok", "data: bad", "noise", "data: ok"])
      = [{ type := "chunk", content := "T" }, { type := "chunk", content := "T" }]
    ∧ query_documents_stream 30 sample_parse (.httpResponse 500 ["data: ok"])
      = [{ type := "error", content := "Backend error: 500" }]
    ∧ query_documents_stream 30 sample_parse .timeoutError
      = [{ type := "error",
           content := "⏱️ Request timeout (30s). The backend might be overloaded." }] :=
  ⟨rfl, rfl, rfl⟩

/-- C7: when the last message is a welcome message, an actual mode change
replaces it in place with the new mode's welcome message, leaving the list
length unchanged; in particular switching knowledge → preparation → knowledge
from a fresh session leaves exactly the knowledge welcome message. -/
theorem mode_switch_replaces_welcome :
    (∀ (s : SessionState) (m newMode : Mode),
        s.messages.getLast? = some (create_welcome_message m) →
        s.selectedMode ≠ newMode →
        (switch_mode s newMode).messages
            = s.messages.dropLast ++ [create_welcome_message newMode]
          ∧ (switch_mode s newMode).messages.length = s.messages.length)
    ∧ (switch_mode (switch_mode initial_state Mode.preparation) Mode.knowledge).messages
        = [create_welcome_message Mode.knowledge] := by
  constructor
  · intro s m newMode hlast hneq
    have hnil : s.messages ≠ [] := by
      intro h
      rw [h] at hlast
      simp at hlast
    have hcond : ((create_welcome_message m).role == Role.assistant
        && pyContains "Willkommen" (create_welcome_message m).content) = true := by
      cases m <;> decide
    have hmsg : (switch_mode s newMode).messages
        = s.messages.dropLast ++ [create_welcome_message newMode] := by
      unfold switch_mode
      rw [if_neg hneq]
      split
      next heq => rw [hlast] at heq; cases heq
      next lastMessage heq =>
        rw [hlast] at heq
        injection heq with h
        subst h
        simp [hcond]
    refine ⟨hmsg, ?_⟩
    rw [hmsg, List.length_append, List.length_dropLast]
    have hpos : 0 < s.messages.length := List.length_pos.mpr hnil
    simp only [List.length_cons, List.length_nil]
    omega
  · rfl

/-- C7 witness: from the fresh session (whose last message is the knowledge
welcome message) a switch to preparation replaces the tail in place and keeps
the list length. -/
theorem mode_switch_replaces_welcome_witness :
    (switch_mode initial_state Mode.preparation).messages
        = initial_state.messages.dropLast ++ [create_welcome_message Mode.preparation]
    ∧ (switch_mode initial_state Mode.preparation).messages.length
        = initial_state.messages.length :=
  mode_switch_replaces_welcome.1 initial_state Mode.knowledge Mode.preparation rfl (by decide)

/-- C8: the clear action resets the conversation: one welcome message for the
current mode, zero query count, locked quota, no email, no session id, and
the selected mode preserved. -/
theorem clear_resets_state (s : SessionState) :
    (clear_conversation s).messages = [create_welcome_message s.selectedMode]
    ∧ (clear_conversation s).queryCount = 0
    ∧ (clear_conversation s).emailProvided = false
    ∧ (clear_conversation s).userEmail = none
    ∧ (clear_conversation s).sessionId = none
    ∧ (clear_conversation s).selectedMode = s.selectedMode :=
  ⟨rfl, rfl, rfl, rfl, rfl, rfl⟩

/-- C9: a retrieved-content excerpt longer than 500 characters renders as its
first 500 characters followed by the ellipsis marker (503 characters in all);
an excerpt of at most 500 characters renders unmodified. -/
theorem excerpt_truncation (content : String) :
    (500 < content.length →
        (truncate_excerpt content).toList = content.toList.take 500 ++ ['.', '.', '.']
      ∧ (truncate_excerpt content).length = 503)
    ∧ (content.length ≤ 500 → truncate_excerpt content = content) := by
  constructor
  · intro h
    have hif : truncate_excerpt content = pyTakeChars content 500 ++ "..." := by
      unfold truncate_excerpt
      rw [if_pos h]
    have htake : (content.toList.take 500).length = 500 := by
      rw [List.length_take]
      have : content.length = content.toList.length := rfl
      omega
    constructor
    · rw [hif]
      rfl
    · rw [hif]
      show (content.toList.take 500 ++ ['.', '.', '.']).length = 503
      rw [List.length_append, htake]
      rfl
  · intro h
    unfold truncate_excerpt
    rw [if_neg (by omega)]

set_option maxRecDepth 8192 in
/-- C9 witness: a 600-character excerpt renders as its first 500 characters
plus the ellipsis (503 characters); the short excerpt "kurz" is unchanged. -/
theorem excerpt_truncation_witness :
    (truncate_excerpt long_sample).length = 503
    ∧ truncate_excerpt "kurz" = "kurz" :=
  ⟨((excerpt_truncation long_sample).1 (by decide)).2,
   (excerpt_truncation "kurz").2 (by decide)⟩

/-- C10 counterexample: the empty JSON object is a 200 response body lacking
the "answer" key (the client returns it as-is), yet the submit flow appends
no assistant message for it: being a falsy Python dict it takes the error
branch, leaving roles `[assistant, user]` and showing the transient banner. -/
theorem empty_body_no_assistant_turn :
    query_documents (.httpResponse 200 (some ({} : QueryResponse)))
        = some ({} : QueryResponse)
    ∧ ({} : QueryResponse).answer = none
    ∧ (submit_question initial_state "Hallo" (some ({} : QueryResponse))).1.messages.map
        Message.role = [Role.assistant, Role.user]
    ∧ (submit_question initial_state "Hallo" (some ({} : QueryResponse))).2
        = [UIEffect.errorBanner "No response received from the system"] :=
  ⟨rfl, rfl, rfl, rfl⟩

/-- C10 amended: for every 200 response whose body is a non-empty (truthy)
JSON object lacking the "answer" key, the submit flow appends a normal
assistant message whose content is the literal "No response received" and
whose error flag is unset; the empty object instead behaves like a null
result. -/
theorem missing_answer_key_default_message (s : SessionState) (prompt : String)
    (r : QueryResponse) (hanswer : r.answer = none) (htruthy : r.isTruthyDict = true) :
    (submit_question s prompt (some r)).1.messages
        = s.messages ++ [mkUserMessage prompt, mkAssistantMessage s r]
    ∧ (mkAssistantMessage s r).content = "No response received"
    ∧ (mkAssistantMessage s r).error = false := by
  refine ⟨?_, ?_, rfl⟩
  · by_cases ho : optStrTruthy (mkAssistantMessage s r).session_id
    · simp [submit_question, htruthy, ho]
    · simp [submit_question, htruthy, ho]
  · simp [mkAssistantMessage, hanswer]

/-- C10 witness: a truthy response carrying only a session id (no "answer"
key) appends the user message and a normal assistant message reading
"No response received". -/
theorem missing_answer_key_default_message_witness :
    (submit_question initial_state "Hallo" (some sample_answerless_response)).1.messages
        = initial_state.messages
            ++ [mkUserMessage "Hallo", mkAssistantMessage initial_state sample_answerless_response]
    ∧ (mkAssistantMessage initial_state sample_answerless_response).content
        = "No response received"
    ∧ (mkAssistantMessage initial_state sample_answerless_response).error = false :=
  missing_answer_key_default_message initial_state "Hallo" sample_answerless_response rfl rfl
